import Mathlib

/-!
Verification development for the temporal-order-system repository.

The Go sources are shallowly embedded:
* `models/order.go` as plain structures (float64 amounts become exact
  rationals; every comparison the properties quantify over is an order or
  equality test that the rational model reflects faithfully);
* `activities/payment_activities.go` and `activities/order_activities.go`
  as pure functions (a Go runtime panic from out-of-range slicing is an
  explicit `ActResult.panicked` outcome; error messages keep their constant
  prefix, the printf-formatted numeric suffixes are elided);
* `workflows/payment_workflow.go` as a function from an activity-outcome
  environment to the list of activity invocations plus the returned result;
* `workflows/order_workflow.go` as a deterministic interpreter.  Temporal
  runs the main sequence and the signal-handler goroutine cooperatively on
  one logical thread: the handler can only run while the main sequence is
  suspended awaiting an activity, child workflow or signal.  A run is
  therefore driven by a schedule: one batch of signals consumed by the
  handler per await point of the main sequence, in program order.
-/

namespace TemporalOrder

/-- models/order.go: the `OrderStatus` enumeration. -/
inductive OrderStatus where
  | pending
  | validated
  | processing
  | completed
  | cancelled
  | expedited
  | failed
deriving DecidableEq

/-- models/order.go: `OrderItem`.  `Price` is float64 in the source,
modelled as an exact rational. -/
structure OrderItem where
  productID : String
  name : String
  quantity : Int
  price : Rat
deriving DecidableEq

/-- models/order.go: `Order` (the `Status`, `CreatedAt` and `UpdatedAt`
fields are never read on the verified code paths and are omitted). -/
structure Order where
  id : String
  items : List OrderItem
  amount : Rat
deriving DecidableEq

/-- Outcome of a payment activity call: either a Go runtime panic (the
source slices `order.ID[:8]`, which panics when the identifier is shorter
than 8 bytes), an error return, or a successful value. -/
inductive ActResult where
  | panicked
  | failed (msg : String)
  | ok (id : String)
deriving DecidableEq

/-- activities/payment_activities.go: `AuthorizePayment`.  Amount checks
come first; the success branch computes `AUTH-` ++ `order.ID[:8]` ++ the
attempt number, and the slice panics when the identifier has fewer than
8 characters. -/
def authorizePayment (order : Order) (attempt : Nat) : ActResult :=
  if order.amount ≤ 0 then .failed "invalid payment amount"
  else if order.amount > 9999 then .failed "payment amount exceeds authorization limit"
  else if order.id.length < 8 then .panicked
  else .ok ("AUTH-" ++ order.id.take 8 ++ "-" ++ toString attempt)

/-- activities/payment_activities.go: `CapturePayment`.  The authorization
id is checked for emptiness; the success branch computes `TXN-` ++
`order.ID[:8]` ++ the attempt number, with the same panic on short ids. -/
def capturePayment (order : Order) (authorizationID : String) (attempt : Nat) : ActResult :=
  if authorizationID = "" then .failed "invalid authorization ID"
  else if order.id.length < 8 then .panicked
  else .ok ("TXN-" ++ order.id.take 8 ++ "-" ++ toString attempt)

/-- activities/order_activities.go: the running total `ProcessOrder`
accumulates over the line items (`calculatedTotal += item.Price *
float64(item.Quantity)`). -/
def calcTotal (items : List OrderItem) : Rat :=
  items.foldl (fun acc it => acc + it.price * (it.quantity : Rat)) 0

/-- activities/order_activities.go: the decision logic of `ProcessOrder`:
a mismatch between the accumulated total and the declared amount is an
error, otherwise the activity succeeds. -/
def processOrder (order : Order) : Except String Unit :=
  if calcTotal order.items ≠ order.amount then .error "order amount mismatch"
  else .ok ()

/-- Activity invocations recorded by `PaymentWorkflow`, with the argument
each one receives. -/
inductive PayInv where
  | authorizePay
  | capturePay (authorizationID : String)
  | voidAuth (authorizationID : String)
deriving DecidableEq

/-- Outcomes of the remote activity calls `PaymentWorkflow` makes, supplied
by the test environment. The result of the void attempt is carried so that
theorems can state its irrelevance: the source discards it. -/
structure PayEnv where
  authorizeResult : Except String String
  captureResult : Except String String
  voidResult : Except String Unit

/-- workflows/payment_workflow.go: `PaymentWorkflow`.  Authorize; on error
wrap it as a payment-authorization failure.  Then capture; on error invoke
`VoidAuthorization` with the obtained authorization id, discard the void
outcome (`_ = workflow.ExecuteActivity(...)`), and wrap the original
capture error.  On success return the transaction-id message. -/
def paymentWorkflow (env : PayEnv) : List PayInv × Except String String :=
  match env.authorizeResult with
  | .error e => ([.authorizePay], .error ("payment authorization failed: " ++ e))
  | .ok authorizationID =>
    match env.captureResult with
    | .error e =>
      ([.authorizePay, .capturePay authorizationID, .voidAuth authorizationID],
        .error ("payment capture failed: " ++ e))
    | .ok transactionID =>
      ([.authorizePay, .capturePay authorizationID],
        .ok ("Payment processed successfully. Transaction ID: " ++ transactionID))

/-- Retry policy literals from the workflow sources (intervals in
milliseconds, coefficient exact). -/
structure RetryPolicy where
  initialIntervalMs : Nat
  backoffCoefficient : Rat
  maximumIntervalMs : Nat
  maximumAttempts : Nat
deriving DecidableEq

/-- Activity options as configured in workflows/order_workflow.go
(timeouts in seconds; an absent retry policy means the field was left
unset, deferring to the server default, which does not bound attempts). -/
structure ActivityOptions where
  startToCloseTimeoutSec : Nat
  heartbeatTimeoutSec : Nat
  retryPolicy : Option RetryPolicy
deriving DecidableEq

/-- workflows/order_workflow.go: the base `activityOptions` installed on
the workflow context. -/
def defaultActivityOptions : ActivityOptions :=
  { startToCloseTimeoutSec := 30
    heartbeatTimeoutSec := 5
    retryPolicy := some { initialIntervalMs := 1000, backoffCoefficient := 2,
                          maximumIntervalMs := 10000, maximumAttempts := 3 } }

/-- workflows/order_workflow.go: the options substituted for the Validate
step when the expedite flag is set at that point. -/
def expeditedValidateOptions : ActivityOptions :=
  { startToCloseTimeoutSec := 15
    heartbeatTimeoutSec := 3
    retryPolicy := some { initialIntervalMs := 500, backoffCoefficient := 2,
                          maximumIntervalMs := 5000, maximumAttempts := 2 } }

/-- workflows/order_workflow.go: the options substituted for the Process
step when the expedite flag is set at that point.  The source sets only the
two timeouts; no retry policy is given. -/
def expeditedProcessOptions : ActivityOptions :=
  { startToCloseTimeoutSec := 15
    heartbeatTimeoutSec := 3
    retryPolicy := none }

/-- workflows/order_workflow.go: the options used for the `RollbackOrder`
activity on the cancellation paths. -/
def rollbackOptions : ActivityOptions :=
  { startToCloseTimeoutSec := 10
    heartbeatTimeoutSec := 0
    retryPolicy := none }

/-- The relation the specification asserts between an expedited profile and
the standard one: shorter timeout, shorter backoff intervals and fewer
maximum attempts. -/
def expeditedTighterB (e s : ActivityOptions) : Bool :=
  decide (e.startToCloseTimeoutSec < s.startToCloseTimeoutSec) &&
  match e.retryPolicy, s.retryPolicy with
  | some er, some sr =>
      decide (er.initialIntervalMs < sr.initialIntervalMs) &&
      decide (er.maximumIntervalMs < sr.maximumIntervalMs) &&
      decide (er.maximumAttempts < sr.maximumAttempts)
  | _, _ => false

/-- workflows/order_workflow.go: `workflow.GetVersion`.  The first
execution of the checkpoint records the code-requested target; every later
execution (replay included) returns the recorded value unchanged. -/
def getVersion (recorded : Option Int) (_minSupported target : Int) : Int :=
  match recorded with
  | some r => r
  | none => target

/-- The two control signals carried by the `cancel` and `expedite` signal
channels. -/
inductive Sig where
  | cancel
  | expedite
deriving DecidableEq

/-- The remote tasks `OrderWorkflow` can dispatch. -/
inductive Task where
  | validateOrder
  | paymentProcessing
  | processOrderTask
  | notifyCustomer
  | rollbackOrder
deriving DecidableEq

/-- One recorded dispatch: the task and whether the expedited options
variant was installed for it (only Validate and Process have one; every
other dispatch uses a non-expedited context). -/
structure Inv where
  task : Task
  expeditedProfile : Bool
deriving DecidableEq

/-- Outcomes of the remote calls `OrderWorkflow` makes, supplied by the
environment.  The result of the final notification is ignored by the
source (logged only), so no flag for it is needed. -/
structure Env where
  validateOk : Bool
  paymentOk : Bool
  processOk : Bool
deriving DecidableEq

/-- The error classes `OrderWorkflow` can return, or success. -/
inductive RunResult where
  | ok
  | validationFailed
  | cancelledByUser
  | paymentFailed
  | processingFailed
deriving DecidableEq

/-- The interpreter state: the two shared flags and the queryable
`WorkflowState` (models/order.go), plus instrumentation that the source
makes observable - the full sequence of status writes, the dispatched
tasks, the options variant chosen for Validate/Process, the value of each
of the three reads of the cancellation flag by the main sequence, and the
remaining signal schedule. -/
structure WState where
  cancelled : Bool
  expedited : Bool
  status : OrderStatus
  validationDone : Bool
  paymentDone : Bool
  processingDone : Bool
  history : List OrderStatus
  invoked : List Inv
  validateProfile : Option Bool
  processProfile : Option Bool
  readCancelPostValidation : Option Bool
  readCancelPostPayment : Option Bool
  readCancelAtCompletion : Option Bool
  sched : List (List Sig)
deriving DecidableEq

/-- The signal-handler goroutine consuming one signal
(workflows/order_workflow.go, the `workflow.Go` body): once `cancelled` is
set the loop has exited and nothing further is consumed; a cancel sets the
flag and writes status Cancelled; an expedite sets the flag and writes
status Expedited. -/
def consumeSig (s : WState) (g : Sig) : WState :=
  if s.cancelled then s
  else
    match g with
    | .cancel =>
        { s with cancelled := true, status := .cancelled,
                 history := s.history ++ [OrderStatus.cancelled] }
    | .expedite =>
        { s with expedited := true, status := .expedited,
                 history := s.history ++ [OrderStatus.expedited] }

/-- One suspension of the main sequence: the handler consumes the next
scheduled batch of signals (none, if the schedule is exhausted). -/
def awaitNext (s : WState) : WState :=
  match s.sched with
  | [] => s
  | b :: rest => b.foldl consumeSig { s with sched := rest }

/-- A status write by the main sequence. -/
def setStatus (s : WState) (st : OrderStatus) : WState :=
  { s with status := st, history := s.history ++ [st] }

/-- Record the dispatch of a task (with its chosen options variant). -/
def invoke (s : WState) (t : Task) (e : Bool) : WState :=
  { s with invoked := s.invoked ++ [⟨t, e⟩] }

/-- The state at workflow start: status Pending, all flags clear. -/
def initState (sched : List (List Sig)) : WState :=
  { cancelled := false, expedited := false, status := .pending,
    validationDone := false, paymentDone := false, processingDone := false,
    history := [OrderStatus.pending], invoked := [],
    validateProfile := none, processProfile := none,
    readCancelPostValidation := none, readCancelPostPayment := none,
    readCancelAtCompletion := none, sched := sched }

/-- workflows/order_workflow.go, completion: set `ProcessingDone`, write
status Completed, read the cancellation flag (the source only logs it),
then dispatch the final notification under the base options and ignore its
outcome. -/
def completionStage (s : WState) : WState × RunResult :=
  let s1 := setStatus { s with processingDone := true } .completed
  let s2 := { s1 with readCancelAtCompletion := some s1.cancelled }
  let s3 := awaitNext (invoke s2 .notifyCustomer false)
  (s3, .ok)

/-- workflows/order_workflow.go, step 3: write status Processing, choose
the options variant from the expedite flag as read at this point, dispatch
`ProcessOrder`; on failure write Failed, roll back and notify. -/
def processStage (env : Env) (s : WState) : WState × RunResult :=
  let s1 := setStatus s .processing
  let s2 := { s1 with processProfile := some s1.expedited }
  let s3 := awaitNext (invoke s2 .processOrderTask s2.expedited)
  if env.processOk then
    completionStage s3
  else
    let s4 := setStatus s3 .failed
    let s5 := awaitNext (invoke s4 .rollbackOrder false)
    let s6 := awaitNext (invoke s5 .notifyCustomer false)
    (s6, .processingFailed)

/-- workflows/order_workflow.go, the cancellation check between payment
and processing: if the flag is set, roll back and return the cancellation
failure. -/
def postPaymentCheck (env : Env) (s : WState) : WState × RunResult :=
  let s1 := { s with readCancelPostPayment := some s.cancelled }
  if s1.cancelled then
    let s2 := awaitNext (invoke s1 .rollbackOrder false)
    (s2, .cancelledByUser)
  else
    processStage env s1

/-- workflows/order_workflow.go, step 2 (version gate open): dispatch the
`PaymentWorkflow` child; on failure write Failed, roll back and notify; on
success set `PaymentDone` and fall through to the cancellation check. -/
def paymentStage (env : Env) (s : WState) : WState × RunResult :=
  let s1 := awaitNext (invoke s .paymentProcessing false)
  if env.paymentOk then
    postPaymentCheck env { s1 with paymentDone := true }
  else
    let s2 := setStatus s1 .failed
    let s3 := awaitNext (invoke s2 .rollbackOrder false)
    let s4 := awaitNext (invoke s3 .notifyCustomer false)
    (s4, .paymentFailed)

/-- workflows/order_workflow.go, after a successful validation: set
`ValidationDone`, write status Validated, then read the cancellation flag;
if set, roll back and return the cancellation failure; otherwise run the
payment stage when the recorded version admits it. -/
def postValidationStage (v : Int) (env : Env) (s : WState) : WState × RunResult :=
  let s1 := setStatus { s with validationDone := true } .validated
  let s2 := { s1 with readCancelPostValidation := some s1.cancelled }
  if s2.cancelled then
    let s3 := awaitNext (invoke s2 .rollbackOrder false)
    (s3, .cancelledByUser)
  else if 1 ≤ v then
    paymentStage env s2
  else
    postPaymentCheck env s2

/-- workflows/order_workflow.go: `OrderWorkflow` for a recorded version
marker `v`, driven by activity outcomes `env` and signal schedule `sched`.
Status is written to Pending again at step 1; the Validate options variant
is chosen from the expedite flag as read before the dispatch (the first
suspension of the main sequence comes after it, so the handler cannot yet
have run); on validation failure the status becomes Failed and a failure
notification is dispatched without rollback. -/
def orderWorkflow (v : Int) (env : Env) (sched : List (List Sig)) : WState × RunResult :=
  let s0 := initState sched
  let s1 := setStatus s0 .pending
  let s2 := { s1 with validateProfile := some s1.expedited }
  let s3 := awaitNext (invoke s2 .validateOrder s2.expedited)
  if env.validateOk then
    postValidationStage v env s3
  else
    let s4 := setStatus s3 .failed
    let s5 := awaitNext (invoke s4 .notifyCustomer false)
    (s5, .validationFailed)

/-- Whether a task occurs among the recorded dispatches. -/
def taskInvoked (s : WState) (t : Task) : Bool :=
  s.invoked.any (fun i => i.task == t)

/-- How many times a task occurs among the recorded dispatches. -/
def taskCount (s : WState) (t : Task) : Nat :=
  s.invoked.countP (fun i => i.task == t)

/-- Rank of the forward path Pending, Validated, Processing, Completed. -/
def statusRank : OrderStatus → Nat
  | .pending => 0
  | .validated => 1
  | .processing => 2
  | .completed => 3
  | _ => 0

/-- Membership in the forward path. -/
def onPath : OrderStatus → Bool
  | .pending => true
  | .validated => true
  | .processing => true
  | .completed => true
  | _ => false

/-- One step of the transition discipline the specification asserts:
Cancelled and Failed are absorbing, and every other transition either
enters Cancelled/Failed or moves forward (weakly) along the path. -/
def okStep (a b : OrderStatus) : Bool :=
  if a == OrderStatus.cancelled || a == OrderStatus.failed then a == b
  else
    (b == OrderStatus.cancelled || b == OrderStatus.failed) ||
    (onPath a && onPath b && decide (statusRank a ≤ statusRank b))

/-- The asserted discipline over a whole sequence of status values. -/
def statusChainOk : List OrderStatus → Bool
  | [] => true
  | [_] => true
  | a :: b :: rest => okStep a b && statusChainOk (b :: rest)

/-- The environment in which every remote call succeeds. -/
def allOk : Env := ⟨true, true, true⟩

/-- The environment induced by a concrete order when the validation and
payment calls are stubbed to succeed and `ProcessOrder` behaves as
implemented. -/
def envWithProcess (order : Order) : Env :=
  { validateOk := true, paymentOk := true,
    processOk := decide (calcTotal order.items = order.amount) }

/-! ### Facts about signal consumption -/

theorem consumeSig_invoked (s : WState) (g : Sig) :
    (consumeSig s g).invoked = s.invoked := by
  unfold consumeSig; by_cases h : s.cancelled <;> cases g <;> simp [h]

theorem consumeSig_sched (s : WState) (g : Sig) :
    (consumeSig s g).sched = s.sched := by
  unfold consumeSig; by_cases h : s.cancelled <;> cases g <;> simp [h]

theorem consumeSig_validationDone (s : WState) (g : Sig) :
    (consumeSig s g).validationDone = s.validationDone := by
  unfold consumeSig; by_cases h : s.cancelled <;> cases g <;> simp [h]

theorem consumeSig_paymentDone (s : WState) (g : Sig) :
    (consumeSig s g).paymentDone = s.paymentDone := by
  unfold consumeSig; by_cases h : s.cancelled <;> cases g <;> simp [h]

theorem consumeSig_processingDone (s : WState) (g : Sig) :
    (consumeSig s g).processingDone = s.processingDone := by
  unfold consumeSig; by_cases h : s.cancelled <;> cases g <;> simp [h]

theorem consumeSig_validateProfile (s : WState) (g : Sig) :
    (consumeSig s g).validateProfile = s.validateProfile := by
  unfold consumeSig; by_cases h : s.cancelled <;> cases g <;> simp [h]

theorem consumeSig_processProfile (s : WState) (g : Sig) :
    (consumeSig s g).processProfile = s.processProfile := by
  unfold consumeSig; by_cases h : s.cancelled <;> cases g <;> simp [h]

theorem consumeSig_readPostValidation (s : WState) (g : Sig) :
    (consumeSig s g).readCancelPostValidation = s.readCancelPostValidation := by
  unfold consumeSig; by_cases h : s.cancelled <;> cases g <;> simp [h]

theorem consumeSig_readPostPayment (s : WState) (g : Sig) :
    (consumeSig s g).readCancelPostPayment = s.readCancelPostPayment := by
  unfold consumeSig; by_cases h : s.cancelled <;> cases g <;> simp [h]

theorem consumeSig_readAtCompletion (s : WState) (g : Sig) :
    (consumeSig s g).readCancelAtCompletion = s.readCancelAtCompletion := by
  unfold consumeSig; by_cases h : s.cancelled <;> cases g <;> simp [h]

theorem foldl_consumeSig_invoked (b : List Sig) (s : WState) :
    (b.foldl consumeSig s).invoked = s.invoked := by
  induction b generalizing s with
  | nil => rfl
  | cons g rest ih => rw [List.foldl_cons, ih, consumeSig_invoked]

theorem foldl_consumeSig_sched (b : List Sig) (s : WState) :
    (b.foldl consumeSig s).sched = s.sched := by
  induction b generalizing s with
  | nil => rfl
  | cons g rest ih => rw [List.foldl_cons, ih, consumeSig_sched]

theorem foldl_consumeSig_validationDone (b : List Sig) (s : WState) :
    (b.foldl consumeSig s).validationDone = s.validationDone := by
  induction b generalizing s with
  | nil => rfl
  | cons g rest ih => rw [List.foldl_cons, ih, consumeSig_validationDone]

theorem foldl_consumeSig_paymentDone (b : List Sig) (s : WState) :
    (b.foldl consumeSig s).paymentDone = s.paymentDone := by
  induction b generalizing s with
  | nil => rfl
  | cons g rest ih => rw [List.foldl_cons, ih, consumeSig_paymentDone]

theorem foldl_consumeSig_processingDone (b : List Sig) (s : WState) :
    (b.foldl consumeSig s).processingDone = s.processingDone := by
  induction b generalizing s with
  | nil => rfl
  | cons g rest ih => rw [List.foldl_cons, ih, consumeSig_processingDone]

theorem foldl_consumeSig_validateProfile (b : List Sig) (s : WState) :
    (b.foldl consumeSig s).validateProfile = s.validateProfile := by
  induction b generalizing s with
  | nil => rfl
  | cons g rest ih => rw [List.foldl_cons, ih, consumeSig_validateProfile]

theorem foldl_consumeSig_processProfile (b : List Sig) (s : WState) :
    (b.foldl consumeSig s).processProfile = s.processProfile := by
  induction b generalizing s with
  | nil => rfl
  | cons g rest ih => rw [List.foldl_cons, ih, consumeSig_processProfile]

theorem foldl_consumeSig_readPostValidation (b : List Sig) (s : WState) :
    (b.foldl consumeSig s).readCancelPostValidation = s.readCancelPostValidation := by
  induction b generalizing s with
  | nil => rfl
  | cons g rest ih => rw [List.foldl_cons, ih, consumeSig_readPostValidation]

theorem foldl_consumeSig_readPostPayment (b : List Sig) (s : WState) :
    (b.foldl consumeSig s).readCancelPostPayment = s.readCancelPostPayment := by
  induction b generalizing s with
  | nil => rfl
  | cons g rest ih => rw [List.foldl_cons, ih, consumeSig_readPostPayment]

theorem foldl_consumeSig_readAtCompletion (b : List Sig) (s : WState) :
    (b.foldl consumeSig s).readCancelAtCompletion = s.readCancelAtCompletion := by
  induction b generalizing s with
  | nil => rfl
  | cons g rest ih => rw [List.foldl_cons, ih, consumeSig_readAtCompletion]

/-- Once the handler has observed a cancel, its loop has exited: a batch of
signals leaves the state untouched. -/
theorem foldl_consumeSig_of_cancelled (b : List Sig) (s : WState)
    (h : s.cancelled = true) : b.foldl consumeSig s = s := by
  induction b with
  | nil => rfl
  | cons g rest ih =>
    have hstep : consumeSig s g = s := by simp [consumeSig, h]
    rw [List.foldl_cons, hstep, ih]

/-- Consuming a batch that contains a cancel while the flag is still clear
sets the flag and leaves the mirrored status at Cancelled. -/
theorem foldl_consumeSig_cancel_mem (b : List Sig) (s : WState)
    (hm : Sig.cancel ∈ b) (hc : s.cancelled = false) :
    (b.foldl consumeSig s).cancelled = true ∧
    (b.foldl consumeSig s).status = OrderStatus.cancelled := by
  induction b generalizing s with
  | nil => cases hm
  | cons g rest ih =>
    rw [List.foldl_cons]
    cases g with
    | cancel =>
      have hstep : consumeSig s Sig.cancel =
          { s with cancelled := true, status := .cancelled,
                   history := s.history ++ [OrderStatus.cancelled] } := by
        simp [consumeSig, hc]
      rw [hstep, foldl_consumeSig_of_cancelled _ _ rfl]
      exact ⟨rfl, rfl⟩
    | expedite =>
      have hm2 : Sig.cancel ∈ rest := by
        rcases List.mem_cons.mp hm with h | h
        · cases h
        · exact h
      have hstep : consumeSig s Sig.expedite =
          { s with expedited := true, status := .expedited,
                   history := s.history ++ [OrderStatus.expedited] } := by
        simp [consumeSig, hc]
      rw [hstep]
      exact ih _ hm2 hc

/-- Consuming a batch without a cancel does not change the flag. -/
theorem foldl_consumeSig_cancel_not_mem (b : List Sig) (s : WState)
    (hm : Sig.cancel ∉ b) : (b.foldl consumeSig s).cancelled = s.cancelled := by
  induction b generalizing s with
  | nil => rfl
  | cons g rest ih =>
    have hg : g = Sig.expedite := by
      cases g
      · exact absurd (List.mem_cons_self _ _) hm
      · rfl
    subst hg
    have hm2 : Sig.cancel ∉ rest := fun h => hm (List.mem_cons_of_mem _ h)
    rw [List.foldl_cons, ih _ hm2]
    unfold consumeSig; by_cases h : s.cancelled <;> simp [h]

/-- With the flag clear and no cancel in the batch, the expedite flag after
the batch records whether the batch held an expedite. -/
theorem foldl_consumeSig_expedited (b : List Sig) (s : WState)
    (hm : Sig.cancel ∉ b) (hc : s.cancelled = false) :
    (b.foldl consumeSig s).expedited = (s.expedited || b.contains Sig.expedite) := by
  induction b generalizing s with
  | nil => simp
  | cons g rest ih =>
    have hg : g = Sig.expedite := by
      cases g
      · exact absurd (List.mem_cons_self _ _) hm
      · rfl
    subst hg
    have hm2 : Sig.cancel ∉ rest := fun h => hm (List.mem_cons_of_mem _ h)
    have hstep : consumeSig s Sig.expedite =
        { s with expedited := true, status := .expedited,
                 history := s.history ++ [OrderStatus.expedited] } := by
      simp [consumeSig, hc]
    have h2 := ih (consumeSig s Sig.expedite) hm2 (by rw [hstep]; exact hc)
    rw [List.foldl_cons, h2, hstep]
    simp [List.contains_cons]

/-! ### Facts about suspension points -/

theorem awaitNext_eq_foldl (s : WState) (b : List Sig) (rest : List (List Sig))
    (hs : s.sched = b :: rest) :
    awaitNext s = b.foldl consumeSig { s with sched := rest } := by
  unfold awaitNext; rw [hs]

theorem awaitNext_nil (s : WState) (hs : s.sched = []) : awaitNext s = s := by
  unfold awaitNext; rw [hs]

theorem awaitNext_invoked (s : WState) : (awaitNext s).invoked = s.invoked := by
  unfold awaitNext
  cases hs : s.sched with
  | nil => rfl
  | cons b rest => rw [foldl_consumeSig_invoked]

theorem awaitNext_validationDone (s : WState) :
    (awaitNext s).validationDone = s.validationDone := by
  unfold awaitNext
  cases hs : s.sched with
  | nil => rfl
  | cons b rest => rw [foldl_consumeSig_validationDone]

theorem awaitNext_paymentDone (s : WState) : (awaitNext s).paymentDone = s.paymentDone := by
  unfold awaitNext
  cases hs : s.sched with
  | nil => rfl
  | cons b rest => rw [foldl_consumeSig_paymentDone]

theorem awaitNext_processingDone (s : WState) :
    (awaitNext s).processingDone = s.processingDone := by
  unfold awaitNext
  cases hs : s.sched with
  | nil => rfl
  | cons b rest => rw [foldl_consumeSig_processingDone]

theorem awaitNext_validateProfile (s : WState) :
    (awaitNext s).validateProfile = s.validateProfile := by
  unfold awaitNext
  cases hs : s.sched with
  | nil => rfl
  | cons b rest => rw [foldl_consumeSig_validateProfile]

theorem awaitNext_processProfile (s : WState) :
    (awaitNext s).processProfile = s.processProfile := by
  unfold awaitNext
  cases hs : s.sched with
  | nil => rfl
  | cons b rest => rw [foldl_consumeSig_processProfile]

theorem awaitNext_readPostValidation (s : WState) :
    (awaitNext s).readCancelPostValidation = s.readCancelPostValidation := by
  unfold awaitNext
  cases hs : s.sched with
  | nil => rfl
  | cons b rest => rw [foldl_consumeSig_readPostValidation]

theorem awaitNext_readPostPayment (s : WState) :
    (awaitNext s).readCancelPostPayment = s.readCancelPostPayment := by
  unfold awaitNext
  cases hs : s.sched with
  | nil => rfl
  | cons b rest => rw [foldl_consumeSig_readPostPayment]

theorem awaitNext_readAtCompletion (s : WState) :
    (awaitNext s).readCancelAtCompletion = s.readCancelAtCompletion := by
  unfold awaitNext
  cases hs : s.sched with
  | nil => rfl
  | cons b rest => rw [foldl_consumeSig_readAtCompletion]

/-- After a cancel has been observed, a suspension changes nothing but the
remaining schedule. -/
theorem awaitNext_of_cancelled (s : WState) (h : s.cancelled = true) :
    (awaitNext s).cancelled = s.cancelled ∧ (awaitNext s).status = s.status ∧
    (awaitNext s).invoked = s.invoked := by
  cases hs : s.sched with
  | nil => rw [awaitNext_nil s hs]; exact ⟨rfl, rfl, rfl⟩
  | cons b rest =>
    rw [awaitNext_eq_foldl s b rest hs,
        foldl_consumeSig_of_cancelled b { s with sched := rest } h]
    exact ⟨rfl, rfl, rfl⟩

theorem awaitNext_cancelled_of_cancelled (s : WState) (h : s.cancelled = true) :
    (awaitNext s).cancelled = true := ((awaitNext_of_cancelled s h).1).trans h

theorem awaitNext_status_of_cancelled (s : WState) (h : s.cancelled = true) :
    (awaitNext s).status = s.status := (awaitNext_of_cancelled s h).2.1

theorem foldl_cancelled_of_mem (b : List Sig) (s : WState)
    (hm : Sig.cancel ∈ b) (hc : s.cancelled = false) :
    (b.foldl consumeSig s).cancelled = true := (foldl_consumeSig_cancel_mem b s hm hc).1

theorem foldl_status_of_mem (b : List Sig) (s : WState)
    (hm : Sig.cancel ∈ b) (hc : s.cancelled = false) :
    (b.foldl consumeSig s).status = OrderStatus.cancelled :=
  (foldl_consumeSig_cancel_mem b s hm hc).2

/-! ### Behaviour of the orchestrator stages -/

/-- If the flag is already set when the post-validation check runs, the run
rolls back once, returns the cancellation failure, and keeps the Validated
status just written by the main sequence. -/
theorem postValidationStage_of_cancelled (v : Int) (env : Env) (s : WState)
    (h : s.cancelled = true) :
    (postValidationStage v env s).2 = RunResult.cancelledByUser ∧
    (postValidationStage v env s).1.invoked = s.invoked ++ [⟨Task.rollbackOrder, false⟩] ∧
    (postValidationStage v env s).1.status = OrderStatus.validated := by
  unfold postValidationStage
  simp [setStatus, invoke, h, awaitNext_invoked, awaitNext_status_of_cancelled]

theorem postValidationStage_snd_of_cancelled (v : Int) (env : Env) (s : WState)
    (h : s.cancelled = true) :
    (postValidationStage v env s).2 = RunResult.cancelledByUser :=
  (postValidationStage_of_cancelled v env s h).1

theorem postValidationStage_invoked_of_cancelled (v : Int) (env : Env) (s : WState)
    (h : s.cancelled = true) :
    (postValidationStage v env s).1.invoked = s.invoked ++ [⟨Task.rollbackOrder, false⟩] :=
  (postValidationStage_of_cancelled v env s h).2.1

theorem postValidationStage_status_of_cancelled (v : Int) (env : Env) (s : WState)
    (h : s.cancelled = true) :
    (postValidationStage v env s).1.status = OrderStatus.validated :=
  (postValidationStage_of_cancelled v env s h).2.2

/-- If the flag is already set when the post-payment check runs, the run
rolls back once and returns the cancellation failure. -/
theorem postPaymentCheck_of_cancelled (env : Env) (s : WState) (h : s.cancelled = true) :
    (postPaymentCheck env s).2 = RunResult.cancelledByUser ∧
    (postPaymentCheck env s).1.invoked = s.invoked ++ [⟨Task.rollbackOrder, false⟩] := by
  unfold postPaymentCheck
  simp [h, invoke, awaitNext_invoked]

theorem postPaymentCheck_snd_of_cancelled (env : Env) (s : WState)
    (h : s.cancelled = true) :
    (postPaymentCheck env s).2 = RunResult.cancelledByUser :=
  (postPaymentCheck_of_cancelled env s h).1

theorem postPaymentCheck_invoked_of_cancelled (env : Env) (s : WState)
    (h : s.cancelled = true) :
    (postPaymentCheck env s).1.invoked = s.invoked ++ [⟨Task.rollbackOrder, false⟩] :=
  (postPaymentCheck_of_cancelled env s h).2

/-- The completion stage dispatches no payment task. -/
theorem completionStage_payfree (s : WState) :
    taskInvoked (completionStage s).1 Task.paymentProcessing =
      taskInvoked s Task.paymentProcessing := by
  unfold completionStage
  simp [taskInvoked, setStatus, invoke, awaitNext_invoked]

/-- The process stage dispatches no payment task. -/
theorem processStage_payfree (env : Env) (s : WState) :
    taskInvoked (processStage env s).1 Task.paymentProcessing =
      taskInvoked s Task.paymentProcessing := by
  unfold processStage
  by_cases hp : env.processOk <;>
    simp [hp, taskInvoked, setStatus, invoke, awaitNext_invoked, completionStage]

/-- The post-payment check dispatches no payment task. -/
theorem postPaymentCheck_payfree (env : Env) (s : WState) :
    taskInvoked (postPaymentCheck env s).1 Task.paymentProcessing =
      taskInvoked s Task.paymentProcessing := by
  unfold postPaymentCheck
  by_cases hcc : s.cancelled
  · simp [hcc, taskInvoked, invoke, awaitNext_invoked]
  · simp only [hcc, Bool.false_eq_true, if_false]
    rw [processStage_payfree]
    simp [taskInvoked]

/-- With the version gate closed, the whole post-validation remainder
dispatches no payment task. -/
theorem postValidationStage_payfree (v : Int) (env : Env) (s : WState)
    (hv : ¬ 1 ≤ v) :
    taskInvoked (postValidationStage v env s).1 Task.paymentProcessing =
      taskInvoked s Task.paymentProcessing := by
  unfold postValidationStage
  by_cases hcc : s.cancelled
  · simp [hcc, taskInvoked, setStatus, invoke, awaitNext_invoked]
  · simp only [setStatus, hcc, Bool.false_eq_true, if_false, hv]
    rw [postPaymentCheck_payfree]
    simp [taskInvoked]

/-- Stages only append dispatches: a task already dispatched stays
dispatched (completion stage). -/
theorem completionStage_mono (s : WState) (t : Task)
    (h : taskInvoked s t = true) : taskInvoked (completionStage s).1 t = true := by
  unfold completionStage
  simp only [taskInvoked, setStatus, invoke] at h ⊢
  simp [awaitNext_invoked, h]

/-- Stages only append dispatches (process stage). -/
theorem processStage_mono (env : Env) (s : WState) (t : Task)
    (h : taskInvoked s t = true) : taskInvoked (processStage env s).1 t = true := by
  unfold processStage
  by_cases hp : env.processOk
  · simp only [hp, if_true]
    apply completionStage_mono
    simp only [taskInvoked, setStatus, invoke] at h ⊢
    simp [awaitNext_invoked, h]
  · simp only [hp, Bool.false_eq_true, if_false]
    simp only [taskInvoked, setStatus, invoke] at h ⊢
    simp [awaitNext_invoked, h]

/-- Stages only append dispatches (post-payment check). -/
theorem postPaymentCheck_mono (env : Env) (s : WState) (t : Task)
    (h : taskInvoked s t = true) : taskInvoked (postPaymentCheck env s).1 t = true := by
  unfold postPaymentCheck
  by_cases hcc : s.cancelled
  · simp only [taskInvoked, invoke] at h ⊢
    simp [hcc, awaitNext_invoked, h]
  · simp only [hcc, Bool.false_eq_true, if_false]
    apply processStage_mono
    simpa only [taskInvoked] using h

/-- Stages only append dispatches (payment stage). -/
theorem paymentStage_mono (env : Env) (s : WState) (t : Task)
    (h : taskInvoked s t = true) : taskInvoked (paymentStage env s).1 t = true := by
  unfold paymentStage
  by_cases hp : env.paymentOk
  · simp only [hp, if_true]
    apply postPaymentCheck_mono
    simp only [taskInvoked, invoke] at h ⊢
    simp [awaitNext_invoked, h]
  · simp only [hp, Bool.false_eq_true, if_false]
    simp only [taskInvoked, setStatus, invoke] at h ⊢
    simp [awaitNext_invoked, h]

/-- Stages only append dispatches (post-validation remainder). -/
theorem postValidationStage_mono (v : Int) (env : Env) (s : WState) (t : Task)
    (h : taskInvoked s t = true) : taskInvoked (postValidationStage v env s).1 t = true := by
  unfold postValidationStage
  by_cases hcc : s.cancelled
  · simp only [taskInvoked, setStatus, invoke] at h ⊢
    simp [hcc, awaitNext_invoked, h]
  · by_cases hv : 1 ≤ v
    · simp only [setStatus, hcc, Bool.false_eq_true, if_false, hv, if_true]
      apply paymentStage_mono
      simpa only [taskInvoked] using h
    · simp only [setStatus, hcc, Bool.false_eq_true, if_false, hv]
      apply postPaymentCheck_mono
      simpa only [taskInvoked] using h

/-- With a recorded version below 1, no run of the orchestrator ever
dispatches the payment subprocess, whatever the activity outcomes and the
signal schedule. -/
theorem orderWorkflow_payment_free_of_version (v : Int) (env : Env)
    (sched : List (List Sig)) (hv : ¬ 1 ≤ v) :
    taskInvoked (orderWorkflow v env sched).1 Task.paymentProcessing = false := by
  unfold orderWorkflow
  by_cases hval : env.validateOk
  · simp only [initState, setStatus, invoke, hval, if_true]
    rw [postValidationStage_payfree _ _ _ hv]
    simp [taskInvoked, awaitNext_invoked]
  · simp [hval, taskInvoked, initState, setStatus, invoke, awaitNext_invoked]

/-- Every run of the orchestrator dispatches the Validate task. -/
theorem orderWorkflow_validate_dispatched (v : Int) (env : Env)
    (sched : List (List Sig)) :
    taskInvoked (orderWorkflow v env sched).1 Task.validateOrder = true := by
  unfold orderWorkflow
  by_cases hval : env.validateOk
  · simp only [hval, if_true]
    apply postValidationStage_mono
    simp [taskInvoked, initState, setStatus, invoke, awaitNext_invoked]
  · simp [hval, taskInvoked, initState, setStatus, invoke, awaitNext_invoked]

/-! ### Payment subprocess and payment activities -/

/-- Authorization ids start with `AUTH-` and transaction ids with `TXN-`,
so results of the two generators can never coincide. -/
theorem auth_id_ne_txn_id (a b n m : String) :
    "AUTH-" ++ a ++ "-" ++ n ≠ "TXN-" ++ b ++ "-" ++ m := by
  intro h
  have h2 := congrArg String.data h
  simp [String.data_append] at h2

/-- An authorization id is never the empty string. -/
theorem auth_id_ne_empty (a n : String) : "AUTH-" ++ a ++ "-" ++ n ≠ "" := by
  intro h
  have h2 := congrArg String.data h
  simp [String.data_append] at h2

/-- C6: in `PaymentWorkflow`, whenever `AuthorizePayment` succeeds and the
subsequent `CapturePayment` fails, `VoidAuthorization` is invoked exactly
once with the obtained authorization id, the void attempt's own outcome is
swallowed (the workflow result is the same for every `voidResult`), and
the error returned to the caller wraps the original capture failure. -/
theorem c6_void_on_capture_failure (authorizationID e : String)
    (voidResult : Except String Unit) :
    (paymentWorkflow ⟨Except.ok authorizationID, Except.error e, voidResult⟩).1 =
      [PayInv.authorizePay, PayInv.capturePay authorizationID,
        PayInv.voidAuth authorizationID] ∧
    (paymentWorkflow ⟨Except.ok authorizationID, Except.error e, voidResult⟩).2 =
      Except.error ("payment capture failed: " ++ e) :=
  ⟨rfl, rfl⟩

/-- Concrete instance of `c6_void_on_capture_failure`: a failing void
attempt is not surfaced and the capture failure is wrapped. -/
theorem c6_void_on_capture_failure_witness :
    (paymentWorkflow ⟨Except.ok "AUTH-ORDER-00-1", Except.error "card declined",
        Except.error "void unavailable"⟩).1 =
      [PayInv.authorizePay, PayInv.capturePay "AUTH-ORDER-00-1",
        PayInv.voidAuth "AUTH-ORDER-00-1"] ∧
    (paymentWorkflow ⟨Except.ok "AUTH-ORDER-00-1", Except.error "card declined",
        Except.error "void unavailable"⟩).2 =
      Except.error ("payment capture failed: " ++ "card declined") :=
  c6_void_on_capture_failure "AUTH-ORDER-00-1" "card declined"
    (Except.error "void unavailable")

/-- C7 counterexample: an order with a one-character identifier and a
perfectly admissible amount (0 < 100 ≤ 9999) makes `AuthorizePayment`
panic on the `order.ID[:8]` slice instead of returning any authorization
id, so the claim as stated (success for every order with an in-range
amount) is false. -/
theorem c7_counterexample :
    (0 : Rat) < 100 ∧ (100 : Rat) ≤ 9999 ∧
    authorizePayment ⟨"x", [], 100⟩ 1 = ActResult.panicked := by decide

/-- C7 (amended): `AuthorizePayment` fails for every amount outside
(0, 9999]; for every in-range amount on an order whose identifier has at
least 8 characters it returns the non-empty `AUTH-` id, which differs from
every transaction id `CapturePayment` can return for the same order. -/
theorem c7_authorize_bounds (order : Order) (attempt : Nat) :
    (order.amount ≤ 0 ∨ 9999 < order.amount →
      ∃ m, authorizePayment order attempt = ActResult.failed m) ∧
    (0 < order.amount → order.amount ≤ 9999 → 8 ≤ order.id.length →
      authorizePayment order attempt =
        ActResult.ok ("AUTH-" ++ order.id.take 8 ++ "-" ++ toString attempt) ∧
      "AUTH-" ++ order.id.take 8 ++ "-" ++ toString attempt ≠ "" ∧
      ∀ (authorizationID t : String) (attempt2 : Nat),
        capturePayment order authorizationID attempt2 = ActResult.ok t →
        "AUTH-" ++ order.id.take 8 ++ "-" ++ toString attempt ≠ t) := by
  constructor
  · intro h
    unfold authorizePayment
    rcases h with h | h
    · rw [if_pos h]
      exact ⟨_, rfl⟩
    · rw [if_neg (not_le.mpr (lt_trans (by norm_num) h)), if_pos h]
      exact ⟨_, rfl⟩
  · intro h1 h2 h3
    unfold authorizePayment
    rw [if_neg (not_le.mpr h1), if_neg (not_lt.mpr h2), if_neg (not_lt.mpr h3)]
    refine ⟨rfl, auth_id_ne_empty _ _, ?_⟩
    intro authorizationID t attempt2 hcap
    unfold capturePayment at hcap
    by_cases hA : authorizationID = ""
    · rw [if_pos hA] at hcap
      cases hcap
    · rw [if_neg hA, if_neg (not_lt.mpr h3)] at hcap
      have ht := ActResult.ok.inj hcap
      rw [← ht]
      exact auth_id_ne_txn_id _ _ _ _

/-- Concrete instance of `c7_authorize_bounds` on both sides of the
boundary. -/
theorem c7_authorize_bounds_witness :
    (∃ m, authorizePayment ⟨"ORDER-0042", [], 10000⟩ 1 = ActResult.failed m) ∧
    (authorizePayment ⟨"ORDER-0042", [], 2500⟩ 1 =
        ActResult.ok ("AUTH-" ++ "ORDER-0042".take 8 ++ "-" ++ toString 1) ∧
      "AUTH-" ++ "ORDER-0042".take 8 ++ "-" ++ toString 1 ≠ "" ∧
      ∀ (authorizationID t : String) (attempt2 : Nat),
        capturePayment ⟨"ORDER-0042", [], 2500⟩ authorizationID attempt2 = ActResult.ok t →
        "AUTH-" ++ "ORDER-0042".take 8 ++ "-" ++ toString 1 ≠ t) :=
  ⟨(c7_authorize_bounds ⟨"ORDER-0042", [], 10000⟩ 1).1 (Or.inr (by norm_num)),
    (c7_authorize_bounds ⟨"ORDER-0042", [], 2500⟩ 1).2 (by norm_num) (by norm_num)
      (by decide)⟩

/-- C10: both payment generators slice the first 8 bytes of the order
identifier on their success branch: for any order whose identifier is
shorter than 8 characters, `AuthorizePayment` with an in-range amount and
`CapturePayment` with a non-empty authorization id both panic instead of
returning a value or an error, so the interface implicitly requires ids of
at least 8 characters. -/
theorem c10_short_id_panics (order : Order) (authorizationID : String) (attempt : Nat)
    (h8 : order.id.length < 8) :
    (0 < order.amount → order.amount ≤ 9999 →
      authorizePayment order attempt = ActResult.panicked) ∧
    (authorizationID ≠ "" →
      capturePayment order authorizationID attempt = ActResult.panicked) := by
  constructor
  · intro h1 h2
    unfold authorizePayment
    rw [if_neg (not_le.mpr h1), if_neg (not_lt.mpr h2), if_pos h8]
  · intro hA
    unfold capturePayment
    rw [if_neg hA, if_pos h8]

/-- Concrete instance of `c10_short_id_panics`: the seven-character
identifier `ORD-123` panics in both activities. -/
theorem c10_short_id_panics_witness :
    authorizePayment ⟨"ORD-123", [], 100⟩ 1 = ActResult.panicked ∧
    capturePayment ⟨"ORD-123", [], 100⟩ "AUTH-X" 1 = ActResult.panicked :=
  ⟨(c10_short_id_panics ⟨"ORD-123", [], 100⟩ "AUTH-X" 1 (by decide)).1
      (by norm_num) (by norm_num),
    (c10_short_id_panics ⟨"ORD-123", [], 100⟩ "AUTH-X" 1 (by decide)).2 (by decide)⟩

/-! ### Counterexamples on the orchestrator -/

/-- C1 counterexample: with a cancel consumed while the Validate activity
is in flight (so before Validate completes) and a successful validation,
the run does return the cancellation failure and rolls back exactly once,
but the final queryable status is Validated, not Cancelled: the main
sequence overwrites the Cancelled status written by the signal handler and
never writes it back on the rollback path. -/
theorem c1_counterexample :
    (orderWorkflow 1 allOk [[Sig.cancel]]).2 = RunResult.cancelledByUser ∧
    taskCount (orderWorkflow 1 allOk [[Sig.cancel]]).1 Task.rollbackOrder = 1 ∧
    (orderWorkflow 1 allOk [[Sig.cancel]]).1.status ≠ OrderStatus.cancelled := by decide

/-- C2 counterexample: a cancel consumed while the Process activity is in
flight leaves the cancellation flag set at the completion-time read
(`readCancelAtCompletion = some true`), yet the Notify task is dispatched
anyway - the flag read before Notify only logs, it does not guard the
step.  (Validate is not guarded either: no read of the flag precedes it.) -/
theorem c2_counterexample :
    (orderWorkflow (-1) allOk [[], [Sig.cancel]]).1.readCancelAtCompletion = some true ∧
    taskInvoked (orderWorkflow (-1) allOk [[], [Sig.cancel]]).1 Task.notifyCustomer = true := by
  decide

/-- C3 counterexample: the sequence of status values of a run in which a
cancel is consumed during validation is Pending, Pending, Cancelled,
Validated - Cancelled is followed by Validated, so Cancelled is not
absorbing and the claimed transition discipline fails. -/
theorem c3_counterexample :
    statusChainOk (orderWorkflow 1 allOk [[Sig.cancel]]).1.history = false ∧
    (orderWorkflow 1 allOk [[Sig.cancel]]).1.history =
      [OrderStatus.pending, OrderStatus.pending, OrderStatus.cancelled,
        OrderStatus.validated] := by decide

/-- C4 counterexample: a cancel consumed after the status was set to
Completed (the completion-time read still saw the flag clear) leaves the
run successful and triggers no rollback, but the signal handler overwrites
the queryable status with Cancelled, so the final status is not
Completed. -/
theorem c4_counterexample :
    (orderWorkflow 1 allOk [[], [], [], [Sig.cancel]]).2 = RunResult.ok ∧
    (orderWorkflow 1 allOk [[], [], [], [Sig.cancel]]).1.readCancelAtCompletion =
      some false ∧
    (orderWorkflow 1 allOk [[], [], [], [Sig.cancel]]).1.cancelled = true ∧
    taskInvoked (orderWorkflow 1 allOk [[], [], [], [Sig.cancel]]).1
      Task.rollbackOrder = false ∧
    (orderWorkflow 1 allOk [[], [], [], [Sig.cancel]]).1.status ≠
      OrderStatus.completed := by decide

/-- C9 counterexample: with an expedite consumed during the Validate await,
the Process step is dispatched under its expedited options variant, but
that variant carries no retry policy at all - it does not have fewer
maximum attempts than the standard profile (whose ceiling is 3), so the
claimed "shorter timeout intervals and fewer maximum attempts" fails for
the Process step. -/
theorem c9_counterexample :
    (orderWorkflow (-1) allOk [[Sig.expedite]]).1.processProfile = some true ∧
    expeditedProcessOptions.retryPolicy = none ∧
    expeditedTighterB expeditedProcessOptions defaultActivityOptions = false := by decide

/-! ### Amended orchestrator properties -/

/-- C1 (amended): if a cancel is consumed before the Validate step
completes and the Validate activity succeeds, the run terminates with the
cancellation failure and `RollbackOrder` is invoked exactly once, but the
final queryable status is Validated: the post-validation status write
overwrites the Cancelled status recorded by the signal handler and the
rollback path never restores it. -/
theorem c1_cancel_before_validate (v : Int) (env : Env) (b1 : List Sig)
    (rest : List (List Sig)) (hc : Sig.cancel ∈ b1) (hval : env.validateOk = true) :
    (orderWorkflow v env (b1 :: rest)).2 = RunResult.cancelledByUser ∧
    taskCount (orderWorkflow v env (b1 :: rest)).1 Task.rollbackOrder = 1 ∧
    (orderWorkflow v env (b1 :: rest)).1.status = OrderStatus.validated := by
  unfold orderWorkflow
  simp [initState, setStatus, invoke, awaitNext, hval, hc, taskCount,
    postValidationStage_snd_of_cancelled, postValidationStage_invoked_of_cancelled,
    postValidationStage_status_of_cancelled, foldl_cancelled_of_mem,
    foldl_consumeSig_invoked]

/-- Concrete instance of `c1_cancel_before_validate`. -/
theorem c1_cancel_before_validate_witness :
    (orderWorkflow 1 allOk [[Sig.cancel]]).2 = RunResult.cancelledByUser ∧
    taskCount (orderWorkflow 1 allOk [[Sig.cancel]]).1 Task.rollbackOrder = 1 ∧
    (orderWorkflow 1 allOk [[Sig.cancel]]).1.status = OrderStatus.validated :=
  c1_cancel_before_validate 1 allOk [Sig.cancel] [] (List.mem_singleton.mpr rfl) rfl

/-- C2 (amended): only the Payment and Process steps are guarded by a
pre-step read of the cancellation flag.  A flag set at the post-validation
read prevents the payment and process dispatches (the run rolls back and
returns the cancellation failure); a flag set at the post-payment read
prevents the process dispatch likewise.  The Validate task is dispatched
in every run without any preceding flag read, and the Notify task is
dispatched even when the completion-time read sees the flag set. -/
theorem c2_cancellation_guards :
    (∀ (v : Int) (env : Env) (b1 : List Sig) (rest : List (List Sig)),
        Sig.cancel ∈ b1 → env.validateOk = true →
        (orderWorkflow v env (b1 :: rest)).1.invoked =
          [⟨Task.validateOrder, false⟩, ⟨Task.rollbackOrder, false⟩] ∧
        (orderWorkflow v env (b1 :: rest)).2 = RunResult.cancelledByUser) ∧
    (∀ (env : Env) (b1 b2 : List Sig),
        Sig.cancel ∉ b1 → Sig.cancel ∈ b2 → env.validateOk = true →
        env.paymentOk = true →
        (orderWorkflow 1 env [b1, b2]).1.invoked =
          [⟨Task.validateOrder, false⟩, ⟨Task.paymentProcessing, false⟩,
            ⟨Task.rollbackOrder, false⟩] ∧
        (orderWorkflow 1 env [b1, b2]).2 = RunResult.cancelledByUser) ∧
    (∀ (v : Int) (env : Env) (sched : List (List Sig)),
        taskInvoked (orderWorkflow v env sched).1 Task.validateOrder = true) ∧
    (∀ (env : Env) (b1 b2 : List Sig),
        Sig.cancel ∉ b1 → Sig.cancel ∈ b2 → env.validateOk = true →
        env.processOk = true →
        (orderWorkflow (-1) env [b1, b2]).1.readCancelAtCompletion = some true ∧
        taskInvoked (orderWorkflow (-1) env [b1, b2]).1 Task.notifyCustomer = true) := by
  refine ⟨?_, ?_, orderWorkflow_validate_dispatched, ?_⟩
  · intro v env b1 rest hc hval
    unfold orderWorkflow
    simp [initState, setStatus, invoke, awaitNext, hval, hc,
      postValidationStage_snd_of_cancelled, postValidationStage_invoked_of_cancelled,
      foldl_cancelled_of_mem, foldl_consumeSig_invoked]
  · intro env b1 b2 hb1 hb2 hval hpay
    unfold orderWorkflow
    simp [initState, setStatus, invoke, awaitNext, hval, hpay, hb1, hb2,
      postValidationStage, paymentStage,
      foldl_consumeSig_cancel_not_mem, foldl_consumeSig_invoked,
      foldl_consumeSig_sched, postPaymentCheck_snd_of_cancelled,
      postPaymentCheck_invoked_of_cancelled, foldl_cancelled_of_mem]
  · intro env b1 b2 hb1 hb2 hval hproc
    unfold orderWorkflow
    simp [initState, setStatus, invoke, awaitNext, hval, hproc, hb1, hb2,
      postValidationStage, postPaymentCheck, processStage, completionStage,
      foldl_consumeSig_cancel_not_mem, foldl_consumeSig_invoked,
      foldl_consumeSig_sched, foldl_consumeSig_readAtCompletion,
      foldl_cancelled_of_mem, taskInvoked]

/-- Concrete instances of all four parts of `c2_cancellation_guards`. -/
theorem c2_cancellation_guards_witness :
    ((orderWorkflow 1 allOk [[Sig.cancel]]).1.invoked =
        [⟨Task.validateOrder, false⟩, ⟨Task.rollbackOrder, false⟩] ∧
      (orderWorkflow 1 allOk [[Sig.cancel]]).2 = RunResult.cancelledByUser) ∧
    ((orderWorkflow 1 allOk [[], [Sig.cancel]]).1.invoked =
        [⟨Task.validateOrder, false⟩, ⟨Task.paymentProcessing, false⟩,
          ⟨Task.rollbackOrder, false⟩] ∧
      (orderWorkflow 1 allOk [[], [Sig.cancel]]).2 = RunResult.cancelledByUser) ∧
    taskInvoked (orderWorkflow 1 allOk []).1 Task.validateOrder = true ∧
    ((orderWorkflow (-1) allOk [[], [Sig.cancel]]).1.readCancelAtCompletion =
        some true ∧
      taskInvoked (orderWorkflow (-1) allOk [[], [Sig.cancel]]).1
        Task.notifyCustomer = true) :=
  ⟨c2_cancellation_guards.1 1 allOk [Sig.cancel] [] (by decide) rfl,
    c2_cancellation_guards.2.1 allOk [] [Sig.cancel] (by decide) (by decide) rfl rfl,
    c2_cancellation_guards.2.2.1 1 allOk [],
    c2_cancellation_guards.2.2.2 allOk [] [Sig.cancel] (by decide) (by decide) rfl rfl⟩

/-- C3 (amended): in runs that consume no signal, the status history obeys
the claimed discipline - it moves forward along Pending, Validated,
Processing, Completed, with Failed absorbing.  (With signals the handler
may write Cancelled or Expedited at a suspension and the main sequence
overwrites them, as the counterexample shows.) -/
theorem c3_status_discipline (v : Int) (env : Env) :
    statusChainOk (orderWorkflow v env []).1.history = true := by
  obtain ⟨ev, ep, er⟩ := env
  by_cases hv : 1 ≤ v <;> cases ev <;> cases ep <;> cases er <;>
    simp [orderWorkflow, postValidationStage, paymentStage, postPaymentCheck,
      processStage, completionStage, initState, setStatus, invoke, awaitNext,
      statusChainOk, okStep, onPath, statusRank, hv]

/-- Concrete instance of `c3_status_discipline`. -/
theorem c3_status_discipline_witness :
    statusChainOk (orderWorkflow 1 allOk []).1.history = true :=
  c3_status_discipline 1 allOk

/-- C4 (amended): a cancel consumed after the status was set to Completed
(all three prior awaits saw no cancel, so the completion-time read was
still clear) leaves the workflow result successful and triggers no
rollback, but the signal handler overwrites the queryable status, so the
final status is Cancelled rather than Completed. -/
theorem c4_cancel_after_completion (env : Env) (b1 b2 b3 b4 : List Sig)
    (h1 : Sig.cancel ∉ b1) (h2 : Sig.cancel ∉ b2) (h3 : Sig.cancel ∉ b3)
    (h4 : Sig.cancel ∈ b4) (hval : env.validateOk = true)
    (hpay : env.paymentOk = true) (hproc : env.processOk = true) :
    (orderWorkflow 1 env [b1, b2, b3, b4]).2 = RunResult.ok ∧
    (orderWorkflow 1 env [b1, b2, b3, b4]).1.readCancelAtCompletion = some false ∧
    taskInvoked (orderWorkflow 1 env [b1, b2, b3, b4]).1 Task.rollbackOrder = false ∧
    (orderWorkflow 1 env [b1, b2, b3, b4]).1.status = OrderStatus.cancelled := by
  unfold orderWorkflow
  simp [initState, setStatus, invoke, awaitNext, hval, hpay, hproc, h1, h2, h3, h4,
    postValidationStage, paymentStage, postPaymentCheck, processStage,
    completionStage, foldl_consumeSig_cancel_not_mem, foldl_consumeSig_invoked,
    foldl_consumeSig_sched, foldl_consumeSig_readAtCompletion,
    foldl_cancelled_of_mem, foldl_status_of_mem, taskInvoked]

/-- Concrete instance of `c4_cancel_after_completion`. -/
theorem c4_cancel_after_completion_witness :
    (orderWorkflow 1 allOk [[], [], [], [Sig.cancel]]).2 = RunResult.ok ∧
    (orderWorkflow 1 allOk [[], [], [], [Sig.cancel]]).1.readCancelAtCompletion =
      some false ∧
    taskInvoked (orderWorkflow 1 allOk [[], [], [], [Sig.cancel]]).1
      Task.rollbackOrder = false ∧
    (orderWorkflow 1 allOk [[], [], [], [Sig.cancel]]).1.status =
      OrderStatus.cancelled :=
  c4_cancel_after_completion allOk [] [] [] [Sig.cancel] (by decide) (by decide)
    (by decide) (by decide) rfl rfl rfl

/-- C5: the payment subprocess is gated solely by the recorded version
marker: a process whose marker was recorded as 0 never dispatches the
payment child even though the code-requested target is 1, whatever the
activity outcomes and signal schedule; a process whose marker was recorded
as 1 dispatches it on every signal-free run whose validation succeeds. -/
theorem c5_version_gate (env : Env) (sched : List (List Sig))
    (hval : env.validateOk = true) :
    taskInvoked (orderWorkflow (getVersion (some 0) (-1) 1) env sched).1
      Task.paymentProcessing = false ∧
    taskInvoked (orderWorkflow (getVersion (some 1) (-1) 1) env []).1
      Task.paymentProcessing = true := by
  constructor
  · exact orderWorkflow_payment_free_of_version 0 env sched (by decide)
  · obtain ⟨ev, ep, er⟩ := env
    replace hval : ev = true := hval
    subst hval
    cases ep <;> cases er <;> decide

/-- Concrete instance of `c5_version_gate`. -/
theorem c5_version_gate_witness :
    taskInvoked (orderWorkflow (getVersion (some 0) (-1) 1) allOk []).1
      Task.paymentProcessing = false ∧
    taskInvoked (orderWorkflow (getVersion (some 1) (-1) 1) allOk []).1
      Task.paymentProcessing = true :=
  c5_version_gate allOk [] rfl

/-- C8: `ProcessOrder` succeeds exactly when the declared amount equals the
sum of quantity times price over the line items; on a mismatch it fails
with the amount-mismatch error and the orchestrator (with the other calls
stubbed to succeed) ends with status Failed and the processing failure. -/
theorem c8_process_amount_check (order : Order) (v : Int) :
    (calcTotal order.items = order.amount →
      processOrder order = Except.ok () ∧
      (orderWorkflow v (envWithProcess order) []).2 = RunResult.ok) ∧
    (calcTotal order.items ≠ order.amount →
      processOrder order = Except.error "order amount mismatch" ∧
      (orderWorkflow v (envWithProcess order) []).2 = RunResult.processingFailed ∧
      (orderWorkflow v (envWithProcess order) []).1.status = OrderStatus.failed) := by
  constructor
  · intro h
    have he : envWithProcess order = allOk := by
      simp [envWithProcess, allOk, h]
    rw [he]
    refine ⟨by simp [processOrder, h], ?_⟩
    by_cases hv : 1 ≤ v <;>
      simp [orderWorkflow, postValidationStage, paymentStage, postPaymentCheck,
        processStage, completionStage, initState, setStatus, invoke, awaitNext,
        allOk, hv]
  · intro h
    have he : envWithProcess order = ⟨true, true, false⟩ := by
      simp [envWithProcess, h]
    rw [he]
    refine ⟨by simp [processOrder, h], ?_, ?_⟩ <;>
      by_cases hv : 1 ≤ v <;>
        simp [orderWorkflow, postValidationStage, paymentStage, postPaymentCheck,
          processStage, completionStage, initState, setStatus, invoke, awaitNext, hv]

/-- Concrete instances of both parts of `c8_process_amount_check`: an order
whose amount matches its line items (2 x 10 = 20) completes, one whose
amount differs (25) fails. -/
theorem c8_process_amount_check_witness :
    (processOrder ⟨"ORDER-0001", [⟨"P1", "Widget", 2, 10⟩], 20⟩ = Except.ok () ∧
      (orderWorkflow 1
          (envWithProcess ⟨"ORDER-0001", [⟨"P1", "Widget", 2, 10⟩], 20⟩) []).2 =
        RunResult.ok) ∧
    (processOrder ⟨"ORDER-0002", [⟨"P1", "Widget", 2, 10⟩], 25⟩ =
        Except.error "order amount mismatch" ∧
      (orderWorkflow 1
          (envWithProcess ⟨"ORDER-0002", [⟨"P1", "Widget", 2, 10⟩], 25⟩) []).2 =
        RunResult.processingFailed ∧
      (orderWorkflow 1
          (envWithProcess ⟨"ORDER-0002", [⟨"P1", "Widget", 2, 10⟩], 25⟩) []).1.status =
        OrderStatus.failed) :=
  ⟨(c8_process_amount_check ⟨"ORDER-0001", [⟨"P1", "Widget", 2, 10⟩], 20⟩ 1).1
      (by norm_num [calcTotal]),
    (c8_process_amount_check ⟨"ORDER-0002", [⟨"P1", "Widget", 2, 10⟩], 25⟩ 1).2
      (by norm_num [calcTotal])⟩

/-- C9 (amended): the expedited Validate profile is strictly tighter than
the standard profile (shorter timeouts, shorter intervals, fewer
attempts), but the expedited Process profile only shortens the timeouts
and carries no retry policy at all (hence no smaller attempt ceiling).
The profile of the Process step is fixed by the expedite flag as read
immediately before its dispatch - it records exactly whether an expedite
was consumed before the step began, and a signal consumed during the
Process await (batch `b2`) cannot change it - and the Validate profile is
always the standard one, because no suspension precedes its profile
read. -/
theorem c9_expedite_profiles (env : Env) (b1 b2 : List Sig)
    (hb1 : Sig.cancel ∉ b1) (hval : env.validateOk = true) :
    expeditedTighterB expeditedValidateOptions defaultActivityOptions = true ∧
    expeditedProcessOptions.retryPolicy = none ∧
    expeditedProcessOptions.startToCloseTimeoutSec <
      defaultActivityOptions.startToCloseTimeoutSec ∧
    (orderWorkflow (-1) env [b1, b2]).1.processProfile =
      some (b1.contains Sig.expedite) ∧
    (orderWorkflow (-1) env [b1, b2]).1.validateProfile = some false := by
  refine ⟨by decide, rfl, by decide, ?_, ?_⟩ <;>
    unfold orderWorkflow <;>
    by_cases hproc : env.processOk <;>
      simp [initState, setStatus, invoke, awaitNext, hval, hproc, hb1,
        postValidationStage, postPaymentCheck, processStage, completionStage,
        foldl_consumeSig_cancel_not_mem, foldl_consumeSig_sched,
        foldl_consumeSig_processProfile, foldl_consumeSig_validateProfile,
        foldl_consumeSig_expedited]

/-- Concrete instance of `c9_expedite_profiles`: an expedite consumed
during the Validate await expedites the Process step; one consumed during
the Process await does not retroactively change it. -/
theorem c9_expedite_profiles_witness :
    expeditedTighterB expeditedValidateOptions defaultActivityOptions = true ∧
    expeditedProcessOptions.retryPolicy = none ∧
    expeditedProcessOptions.startToCloseTimeoutSec <
      defaultActivityOptions.startToCloseTimeoutSec ∧
    (orderWorkflow (-1) allOk [[], [Sig.expedite]]).1.processProfile =
      some ([].contains Sig.expedite) ∧
    (orderWorkflow (-1) allOk [[], [Sig.expedite]]).1.validateProfile = some false :=
  c9_expedite_profiles allOk [] [Sig.expedite] (by decide) rfl

end TemporalOrder
